import Mathlib

/-!
Verification development for the discipline habit-tracking backend.

The Go sources are shallowly embedded: the persistence layer (PostgreSQL
behind pgx) is modelled as in-memory row lists with the exact error mapping
the repository layer performs on constraint violations, and each domain
service is translated statement by statement.  Go `error` values are
modelled by `GoError`; `errors.New` allocates a fresh value that is never
identical to a sentinel, which is what `errors.Is` tests for these plain
errors.
-/

namespace Discipline

/-- uuid.UUID values are opaque identifiers; equality is all the code uses. -/
abbrev UUID := Nat

/-- Error values of internal/error_values/errvalues.go plus `errors.New`
allocations.  `errNew` carries the message string; two `errors.New` results
are distinct allocations, so `errors.Is` never identifies an `errNew`
value with a sentinel. -/
inductive GoError where
  | errUserExists
  | errUserNotFound
  | errWrongCredentials
  | errInvalidToken
  | errUserHasHabit
  | errHabitNotFound
  | errOwnerNotFound
  | errWrongOwner
  | errCheckExist
  | errCheckNotFound
  | errCheckDateNotAllowed
  | errNew (msg : String)
  deriving Repr, DecidableEq

/-- The Error() string of each error value. -/
def GoError.message : GoError → String
  | .errUserExists => "such user already exists"
  | .errUserNotFound => "user doesn't exists"
  | .errWrongCredentials => "wrong name or password"
  | .errInvalidToken => "invalid token"
  | .errUserHasHabit => "habit with such title already owned by user"
  | .errHabitNotFound => "habit doesn't exists"
  | .errOwnerNotFound => "user to own habit not found"
  | .errWrongOwner => "habit owner and given user don't match"
  | .errCheckExist => "habit already checked on this date"
  | .errCheckNotFound => "habit check on this date not found"
  | .errCheckDateNotAllowed => "can't check habit on date in the future"
  | .errNew m => m

/-- Go errors.Is for the error values of this codebase: sentinel values
compare by identity; an `errors.New` allocation is identical to no sentinel. -/
def errorsIs (err target : GoError) : Bool :=
  match err with
  | .errNew _ => false
  | e => e == target

/-- pkg/entity User. -/
structure User where
  id : UUID
  name : String
  passwordHash : String
  deriving Repr, DecidableEq

/-- pkg/entity Habit. -/
structure Habit where
  id : UUID
  userID : UUID
  title : String
  description : String
  createdAt : Int
  updatedAt : Int
  deriving Repr, DecidableEq

/-- pkg/entity HabitCheck. -/
structure HabitCheck where
  id : Nat
  habitID : UUID
  checkDate : Int
  createdAt : Int
  deriving Repr, DecidableEq

/-- pkg/entity HabitStats. -/
structure HabitStats where
  id : UUID
  totalChecks : Nat
  currentStreak : Nat
  maxStreak : Nat
  lastCheck : Int
  deriving Repr, DecidableEq

/-- The persistent state: the users, habits and habit_checks tables, rows
in insertion order (queries without ORDER BY return rows in table order). -/
structure Store where
  users : List User
  habits : List Habit
  checks : List HabitCheck
  deriving Repr, DecidableEq

/-- Symbolic bcrypt digest (golang.org/x/crypto/bcrypt is an external
one-way hash; only the compare-against-own-hash contract matters here). -/
def bcryptHash (password : String) : String :=
  "bcrypt$" ++ password

/-- bcrypt.CompareHashAndPassword succeeds exactly on the hashed password. -/
def bcryptCompare (hash password : String) : Bool :=
  hash == bcryptHash password

/-- UsersRepository.FindByName: SELECT ... FROM users WHERE name = $1. -/
def usersFindByName (s : Store) (name : String) : Except GoError User :=
  match s.users.find? (fun u => u.name == name) with
  | some u => .ok u
  | none => .error .errUserNotFound

/-- UsersRepository.FindByID: SELECT ... FROM users WHERE id = $1. -/
def usersFindByID (s : Store) (uid : UUID) : Except GoError User :=
  match s.users.find? (fun u => u.id == uid) with
  | some u => .ok u
  | none => .error .errUserNotFound

/-- Deterministic fresh id standing in for uuid_generate_v4(). -/
def freshUserID (s : Store) : UUID :=
  s.users.length + 1

/-- UsersRepository.Create: INSERT INTO users; the unique constraint on
name surfaces as pg code 23505, mapped to ErrUserExists. -/
def usersCreate (s : Store) (name passwordHash : String) : Except GoError Store :=
  if s.users.any (fun u => u.name == name) then .error .errUserExists
  else .ok { s with users := s.users ++ [{ id := freshUserID s, name := name, passwordHash := passwordHash }] }

/-- UsersRepository.Delete: DELETE FROM users WHERE id = $1; zero rows
affected maps to ErrUserNotFound.  Owned habits and their checks go with
the user (ON DELETE CASCADE in the schema). -/
def usersDelete (s : Store) (uid : UUID) : Except GoError Store :=
  if s.users.any (fun u => u.id == uid) then
    .ok { users := s.users.filter (fun u => u.id != uid),
          habits := s.habits.filter (fun h => h.userID != uid),
          checks := s.checks.filter (fun c =>
            !(s.habits.any (fun h => h.id == c.habitID && h.userID == uid))) }
  else .error .errUserNotFound

/-- HabitsRepository.GetByID: SELECT ... FROM habits WHERE id = $1; the
first matching row, ErrHabitNotFound when there is none. -/
def habitsGetByID (s : Store) (id : UUID) : Except GoError Habit :=
  match s.habits.find? (fun h => h.id == id) with
  | some h => .ok h
  | none => .error .errHabitNotFound

/-- HabitsRepository.Delete: DELETE FROM habits WHERE id = $1; zero rows
affected maps to ErrHabitNotFound.  Checks of the habit go with it
(ON DELETE CASCADE on habit_checks.habit_id). -/
def habitsDelete (s : Store) (id : UUID) : Except GoError Store :=
  if s.habits.any (fun h => h.id == id) then
    .ok { s with habits := s.habits.filter (fun h => h.id != id),
                 checks := s.checks.filter (fun c => c.habitID != id) }
  else .error .errHabitNotFound

/-- Presence of a (habit_id, check_date) row, as the database sees it: used
to model the unique-constraint check on INSERT and the rows-affected count
on DELETE, whose SQL names the columns correctly. -/
def checkRowExists (s : Store) (habitID : UUID) (date : Int) : Bool :=
  s.checks.any (fun c => c.habitID == habitID && c.checkDate == date)

/-- HabitChecksRepository.Exists: its SQL says WHERE habitID = $1, but the
habit_checks table defines only habit_id, so postgres rejects the query
(undefined column habitid) and the method always returns the wrapped scan
error, never a boolean. -/
def checksExists (_s : Store) (_habitID : UUID) (_date : Int) : Except GoError Bool :=
  .error (.errNew "inspecting if check exists error: ERROR: column \"habitid\" does not exist (SQLSTATE 42703)")

/-- HabitChecksRepository.Create: INSERT INTO habit_checks (habit_id,
check_date); pg code 23503 (foreign key) maps to ErrHabitNotFound, 23505
(unique) to ErrCheckExist. -/
def checksCreate (s : Store) (habitID : UUID) (date now : Int) : Except GoError Store :=
  if !(s.habits.any (fun h => h.id == habitID)) then .error .errHabitNotFound
  else if checkRowExists s habitID date then .error .errCheckExist
  else .ok { s with checks := s.checks ++ [{ id := s.checks.length + 1, habitID := habitID, checkDate := date, createdAt := now }] }

/-- HabitChecksRepository.Delete: DELETE ... WHERE habit_id = $1 AND
check_date = $2; zero rows affected maps to ErrCheckNotFound. -/
def checksDelete (s : Store) (habitID : UUID) (date : Int) : Except GoError Store :=
  if checkRowExists s habitID date then
    .ok { s with checks := s.checks.filter (fun c => !(c.habitID == habitID && c.checkDate == date)) }
  else .error .errCheckNotFound

/-- HabitChecksRepository.GetByHabitAndDateRange: its SQL also says WHERE
habitID = $1 against the nonexistent column (and rows.Scan is passed values
rather than pointers), so the call always returns the wrapped query error
and never a row list. -/
def checksGetByHabitAndDateRange (_s : Store) (_habitID : UUID) (_fromDate _toDate : Int) :
    Except GoError (List HabitCheck) :=
  .error (.errNew "getting checks for period error: ERROR: column \"habitid\" does not exist (SQLSTATE 42703)")

/-- Mutating repository calls a service actually issued during one operation. -/
inductive Effect where
  | usersCreateCall (name : String)
  | usersDeleteCall (uid : UUID)
  | habitsDeleteCall (id : UUID)
  | checksCreateCall (habitID : UUID) (date : Int)
  | checksDeleteCall (habitID : UUID) (date : Int)
  deriving Repr, DecidableEq

/-- RegisterRequest of internal/service with its validate tags. -/
structure RegisterRequest where
  name : String
  password : String
  deriving Repr, DecidableEq

/-- The custom alphanum_underscore validation registered in InitValidator:
the first rune may not be a digit or underscore and every rune must be a
letter, digit or underscore (Go unicode.IsLetter/IsDigit modelled on the
Latin alphabet as Char.isAlpha/Char.isDigit). -/
def alphanumUnderscore (value : String) : Bool :=
  match value.toList with
  | [] => true
  | c :: _ =>
    !(c.isDigit || c == '_') &&
      value.toList.all (fun ch => ch.isAlpha || ch.isDigit || ch == '_')

/-- validate.Struct on RegisterRequest: Name is required (non-empty),
alphanum_underscore, min=3, max=100; Password is required, min=8, max=72
(lengths are rune counts). -/
def validateRegisterRequest (req : RegisterRequest) : Bool :=
  req.name != "" && alphanumUnderscore req.name &&
    decide (3 ≤ req.name.length) && decide (req.name.length ≤ 100) &&
    req.password != "" && decide (8 ≤ req.password.length) && decide (req.password.length ≤ 72)

/-- UserService.Register of internal/service/user_service.go.  Returns the
resulting store, the mutating repository calls issued, and the result. -/
def register (s : Store) (req : RegisterRequest) : Store × List Effect × Except GoError User :=
  if !(validateRegisterRequest req) then
    (s, [], .error (.errNew "validation error: "))
  else
    let passwordHash := bcryptHash req.password
    match usersCreate s req.name passwordHash with
    | .error e =>
      if errorsIs e .errUserExists then
        (s, [.usersCreateCall req.name], .error (.errNew "user with such name already exists"))
      else
        (s, [.usersCreateCall req.name], .error (.errNew ("repository creating error: " ++ e.message)))
    | .ok s' =>
      match usersFindByName s' req.name with
      | .error e => (s', [.usersCreateCall req.name], .error (.errNew ("repository searching error: " ++ e.message)))
      | .ok user => (s', [.usersCreateCall req.name], .ok user)

/-- UserService.Login of internal/service/user_service.go. -/
def login (s : Store) (name password : String) : Except GoError User :=
  match usersFindByName s name with
  | .error e =>
    if errorsIs e .errUserNotFound then .error (.errNew "user with given name not found")
    else .error (.errNew ("repository searching error: " ++ e.message))
  | .ok user =>
    if !(bcryptCompare user.passwordHash password) then
      .error (.errNew "login failed: wrong password")
    else .ok user

/-- UserService.GetByID of internal/service/user_service.go. -/
def userGetByID (s : Store) (id : UUID) : Except GoError User :=
  match usersFindByID s id with
  | .error e =>
    if errorsIs e .errUserNotFound then .error (.errNew "user with given id not found")
    else .error (.errNew ("repository searching error: " ++ e.message))
  | .ok user => .ok user

/-- UserService.DeleteAccount of internal/service/user_service.go. -/
def deleteAccount (s : Store) (id : UUID) (password : String) : Store × List Effect × Option GoError :=
  match usersFindByID s id with
  | .error e =>
    if errorsIs e .errUserNotFound then (s, [], some (.errNew "user with given id not found"))
    else (s, [], some (.errNew ("repository searching error: " ++ e.message)))
  | .ok user =>
    if !(bcryptCompare user.passwordHash password) then
      (s, [], some (.errNew "deletion failed: wrong password"))
    else
      match usersDelete s user.id with
      | .ok s' => (s', [.usersDeleteCall user.id], none)
      | .error e =>
        if errorsIs e .errUserNotFound then (s, [.usersDeleteCall user.id], some (.errNew "user with given id not found"))
        else (s, [.usersDeleteCall user.id], some (.errNew ("repository deletion error: " ++ e.message)))

/-- HabitsService.GetHabit of internal/service/habits_service.go. -/
def getHabit (s : Store) (habitID userID : UUID) : Except GoError Habit :=
  match habitsGetByID s habitID with
  | .error e =>
    if errorsIs e .errHabitNotFound then .error e
    else .error (.errNew ("habits repository error: " ++ e.message))
  | .ok habit =>
    if habit.userID != userID then .error .errWrongOwner
    else .ok habit

/-- HabitsService.DeleteHabit of internal/service/habits_service.go. -/
def deleteHabit (s : Store) (habitID userID : UUID) : Store × List Effect × Option GoError :=
  match habitsGetByID s habitID with
  | .error e =>
    if errorsIs e .errHabitNotFound then (s, [], some e)
    else (s, [], some (.errNew ("habits repository error: " ++ e.message)))
  | .ok habit =>
    if habit.userID != userID then (s, [], some .errWrongOwner)
    else
      match habitsDelete s habitID with
      | .ok s' => (s', [.habitsDeleteCall habitID], none)
      | .error e =>
        if errorsIs e .errHabitNotFound then (s, [.habitsDeleteCall habitID], some e)
        else (s, [.habitsDeleteCall habitID], some (.errNew ("habits repository error: " ++ e.message)))

/-- HabitChecksService.CheckHabit of internal/service/habit_checks_service.go.
`now` is the time.Now() the service observes; date.After(now) is a strict
comparison. -/
def checkHabit (s : Store) (habitID userID : UUID) (date now : Int) : Store × List Effect × Option GoError :=
  match habitsGetByID s habitID with
  | .error e =>
    if errorsIs e .errHabitNotFound then (s, [], some e)
    else (s, [], some (.errNew ("repository error: " ++ e.message)))
  | .ok habit =>
    if habit.userID != userID then (s, [], some .errWrongOwner)
    else if now < date then (s, [], some .errCheckDateNotAllowed)
    else
      match checksExists s habitID date with
      | .error e => (s, [], some (.errNew ("repository error: " ++ e.message)))
      | .ok exist =>
        if exist then (s, [], some .errCheckExist)
        else
          match checksCreate s habitID date now with
          | .ok s' => (s', [.checksCreateCall habitID date], none)
          | .error e => (s, [.checksCreateCall habitID date], some (.errNew ("repository error: " ++ e.message)))

/-- HabitChecksService.UncheckHabit of internal/service/habit_checks_service.go. -/
def uncheckHabit (s : Store) (habitID userID : UUID) (date : Int) : Store × List Effect × Option GoError :=
  match habitsGetByID s habitID with
  | .error e =>
    if errorsIs e .errHabitNotFound then (s, [], some e)
    else (s, [], some (.errNew ("repository error: " ++ e.message)))
  | .ok habit =>
    if habit.userID != userID then (s, [], some .errWrongOwner)
    else
      match checksExists s habitID date with
      | .error e => (s, [], some (.errNew ("repository error: " ++ e.message)))
      | .ok exist =>
        if !exist then (s, [], some .errCheckNotFound)
        else
          match checksDelete s habitID date with
          | .ok s' => (s', [.checksDeleteCall habitID date], none)
          | .error e => (s, [.checksDeleteCall habitID date], some (.errNew ("repository error: " ++ e.message)))

/-- HabitChecksService.GetHabitChecks of internal/service/habit_checks_service.go. -/
def getHabitChecks (s : Store) (habitID userID : UUID) (fromDate toDate : Int) : Except GoError (List HabitCheck) :=
  match habitsGetByID s habitID with
  | .error e =>
    if errorsIs e .errHabitNotFound then .error e
    else .error (.errNew ("repository error: " ++ e.message))
  | .ok habit =>
    if habit.userID != userID then .error .errWrongOwner
    else
      match checksGetByHabitAndDateRange s habitID fromDate toDate with
      | .error e => .error (.errNew ("repository error: " ++ e.message))
      | .ok checks => .ok checks

/-- HabitChecksService.GetHabitStats of internal/service/habit_checks_service.go.
After the ownership check the source returns nil, nil (streak counting is a
TO-DO), modelled as `.ok none`. -/
def getHabitStats (s : Store) (habitID userID : UUID) : Except GoError (Option HabitStats) :=
  match habitsGetByID s habitID with
  | .error e =>
    if errorsIs e .errHabitNotFound then .error e
    else .error (.errNew ("repository error: " ++ e.message))
  | .ok habit =>
    if habit.userID != userID then .error .errWrongOwner
    else .ok none

/-- JWT claims of internal/api: RegisteredClaims timestamps plus user_id
and username.  user_id is the string form of the user's uuid. -/
structure JWTClaims where
  userID : String
  username : String
  expiresAt : Int
  issuedAt : Int
  notBefore : Int
  deriving Repr, DecidableEq

/-- The signing method recorded in the token header. -/
inductive SigningMethod where
  | hs256
  | other (name : String)
  deriving Repr, DecidableEq

/-- tokenTTL of pkg/jwt_service: one hour. -/
def tokenTTL : Int := 3600

/-- Symbolic HMAC: a MAC is forgeable only with the secret, modelled by
letting the tag determine the pair (secret, signed payload). -/
def hmacSign (secret : String) (claims : JWTClaims) : String × JWTClaims :=
  (secret, claims)

/-- A signed token: payload, header algorithm, and signature. -/
structure SignedToken where
  claims : JWTClaims
  method : SigningMethod
  signature : String × JWTClaims
  deriving Repr, DecidableEq

/-- JWTService.GenerateToken: issued_at = not_before = now,
expires_at = now + tokenTTL, signed with HS256 over the claims. -/
def generateToken (secret : String) (now : Int) (user : User) : SignedToken :=
  let claims : JWTClaims :=
    { userID := toString user.id
      username := user.name
      expiresAt := now + tokenTTL
      issuedAt := now
      notBefore := now }
  { claims := claims, method := .hs256, signature := hmacSign secret claims }

/-- JWTService.ParseToken: rejects a non-HS256 header, rejects a signature
not produced with this secret over these claims, and then applies
golang-jwt/v5 ParseWithClaims' default registered-claims validation with
zero leeway: the token is expired unless now is strictly before expires_at,
and not yet valid while now is before not_before.  All these library-side
failures surface as errors.New wrappers. -/
def parseToken (secret : String) (now : Int) (tok : SignedToken) : Except GoError JWTClaims :=
  if tok.method != SigningMethod.hs256 then
    .error (.errNew "token parsing error: unexpected signing method")
  else if tok.signature != hmacSign secret tok.claims then
    .error (.errNew "token parsing error: token signature is invalid")
  else if tok.claims.expiresAt ≤ now then
    .error (.errNew "token parsing error: token has invalid claims: token is expired")
  else if now < tok.claims.notBefore then
    .error (.errNew "token parsing error: token has invalid claims: token is not valid yet")
  else .ok tok.claims

/-- Digit-string parser used to model uuid.Parse: consumes decimal digits
and fails on any other character. -/
def parseNatDigits : List Char → Nat → Option Nat
  | [], acc => some acc
  | c :: cs, acc =>
    if c.isDigit then parseNatDigits cs (acc * 10 + (c.toNat - 48)) else none

/-- uuid.Parse applied to the user_id claim: uuids are rendered with
toString in GenerateToken, so parsing succeeds exactly on well-formed
renderings and fails on any malformed payload. -/
def uuidParse (str : String) : Option UUID :=
  match str.toList with
  | [] => none
  | cs => parseNatDigits cs 0

/-- Outcome of the auth middleware for one request: either an error
response is written and the chain stops, or the handler chain runs with
the verified uid in the request context. -/
inductive AuthOutcome where
  | rejected (status : Nat) (message : String)
  | accepted (uid : UUID)
  deriving Repr, DecidableEq

/-- Server.AuthMiddleware of internal/api/middleware.go, from the point
where the bearer token has been extracted from the Authorization header:
parse the token, check ExpiresAt.Before(now) || NotBefore.After(now),
parse the user_id claim, confirm the user still exists, then invoke the
handler chain with the uid attached. -/
def authMiddleware (s : Store) (secret : String) (now : Int) (tok : SignedToken) : AuthOutcome :=
  match parseToken secret now tok with
  | .error e =>
    if errorsIs e .errInvalidToken then .rejected 401 "authorization failed: invalid token"
    else .rejected 500 "error parsing token"
  | .ok claims =>
    if claims.expiresAt < now ∨ claims.notBefore > now then
      .rejected 401 "token expired or not ready"
    else
      match uuidParse claims.userID with
      | none => .rejected 401 "invalid token payload"
      | some uid =>
        match userGetByID s uid with
        | .error e =>
          if errorsIs e .errUserNotFound then .rejected 404 "auth failed: user not found"
          else .rejected 500 "internal error while searching for user"
        | .ok _ => .accepted uid

/-! Helper lemmas connecting the repository reads to the repository writes. -/

theorem habitsGetByID_ok_find? (s : Store) (habitID : UUID) (hb : Habit)
    (h : habitsGetByID s habitID = .ok hb) :
    s.habits.find? (fun hh => hh.id == habitID) = some hb := by
  unfold habitsGetByID at h
  cases hf : s.habits.find? (fun hh => hh.id == habitID) with
  | some x => rw [hf] at h; cases h; rfl
  | none => rw [hf] at h; cases h

theorem habits_any_of_found (s : Store) (habitID : UUID) (hb : Habit)
    (h : habitsGetByID s habitID = .ok hb) :
    s.habits.any (fun hh => hh.id == habitID) = true := by
  have hfind := habitsGetByID_ok_find? s habitID hb h
  have hp : (hb.id == habitID) = true := by
    have := List.find?_some hfind
    simpa using this
  exact List.any_eq_true.mpr ⟨hb, List.mem_of_find?_eq_some hfind, hp⟩

theorem habitsDelete_ok_of_found (s : Store) (habitID : UUID) (hb : Habit)
    (h : habitsGetByID s habitID = .ok hb) :
    habitsDelete s habitID =
      .ok { s with habits := s.habits.filter (fun hh => hh.id != habitID),
                   checks := s.checks.filter (fun c => c.habitID != habitID) } := by
  unfold habitsDelete
  rw [habits_any_of_found s habitID hb h]
  simp

theorem usersFindByID_ok_find? (s : Store) (id : UUID) (u : User)
    (h : usersFindByID s id = .ok u) :
    s.users.find? (fun uu => uu.id == id) = some u := by
  unfold usersFindByID at h
  cases hf : s.users.find? (fun uu => uu.id == id) with
  | some x => rw [hf] at h; cases h; rfl
  | none => rw [hf] at h; cases h

theorem usersDelete_ok_of_found (s : Store) (id : UUID) (u : User)
    (h : usersFindByID s id = .ok u) :
    ∃ s', usersDelete s u.id = .ok s' := by
  have hfind := usersFindByID_ok_find? s id u h
  have hany : s.users.any (fun uu => uu.id == u.id) = true := by
    refine List.any_eq_true.mpr ⟨u, List.mem_of_find?_eq_some hfind, ?_⟩
    simp
  unfold usersDelete
  rw [hany]
  simp

/-! Claim theorems. -/

/-- Claim C1: for a habit that exists in the store and a requester other
than its owner, GetHabit, DeleteHabit, CheckHabit and UncheckHabit all
fail with ErrWrongOwner, leave the store unchanged, issue no mutating
repository call, and return no habit data. -/
theorem ownership_isolation (s : Store) (habitID userID : UUID) (hb : Habit)
    (hfind : s.habits.find? (fun h => h.id == habitID) = some hb)
    (howner : hb.userID ≠ userID) :
    getHabit s habitID userID = Except.error GoError.errWrongOwner
  ∧ deleteHabit s habitID userID = (s, [], some GoError.errWrongOwner)
  ∧ (∀ date now : Int, checkHabit s habitID userID date now = (s, [], some GoError.errWrongOwner))
  ∧ (∀ date : Int, uncheckHabit s habitID userID date = (s, [], some GoError.errWrongOwner)) := by
  have hbid : habitsGetByID s habitID = .ok hb := by
    unfold habitsGetByID; rw [hfind]
  have hbne : (hb.userID != userID) = true := by
    simpa [bne_iff_ne] using howner
  refine ⟨?_, ?_, ?_, ?_⟩ <;> intros <;>
    simp [getHabit, deleteHabit, checkHabit, uncheckHabit, hbid, hbne]

def storeC1 : Store :=
  { users := [],
    habits := [{ id := 1, userID := 10, title := "Run", description := "", createdAt := 0, updatedAt := 0 }],
    checks := [] }

/-- Witness for C1 at a concrete store: habit 1 is owned by user 10 and
requested by user 20. -/
theorem ownership_isolation_witness :
    getHabit storeC1 1 20 = Except.error GoError.errWrongOwner
  ∧ deleteHabit storeC1 1 20 = (storeC1, [], some GoError.errWrongOwner)
  ∧ checkHabit storeC1 1 20 3 9 = (storeC1, [], some GoError.errWrongOwner)
  ∧ uncheckHabit storeC1 1 20 3 = (storeC1, [], some GoError.errWrongOwner) := by
  obtain ⟨h1, h2, h3, h4⟩ := ownership_isolation storeC1 1 20
    { id := 1, userID := 10, title := "Run", description := "", createdAt := 0, updatedAt := 0 }
    rfl (by decide)
  exact ⟨h1, h2, h3 3 9, h4 3⟩

def storeC4 : Store :=
  { users := [],
    habits := [{ id := 1, userID := 10, title := "Run", description := "", createdAt := 0, updatedAt := 0 }],
    checks := [] }

def storeC4dup : Store :=
  { users := [],
    habits := [{ id := 1, userID := 10, title := "Run", description := "", createdAt := 0, updatedAt := 0 }],
    checks := [{ id := 1, habitID := 1, checkDate := 3, createdAt := 3 }] }

/-- Claim C4 (code-bug evidence): once the habit-missing, wrong-owner and
future-date gates have passed, CheckHabit calls the Exists query, whose SQL
names the nonexistent column habitID, so both with no prior check and with
a duplicate check the operation returns the wrapped repository error: it
never persists a check and never returns CheckAlreadyExists. -/
theorem checkHabit_exists_query_fails :
    checkHabit storeC4 1 10 3 9 =
      (storeC4, [],
       some (GoError.errNew "repository error: inspecting if check exists error: ERROR: column \"habitid\" does not exist (SQLSTATE 42703)"))
  ∧ checkHabit storeC4dup 1 10 3 9 =
      (storeC4dup, [],
       some (GoError.errNew "repository error: inspecting if check exists error: ERROR: column \"habitid\" does not exist (SQLSTATE 42703)"))
  ∧ checkHabit storeC4 1 20 3 9 = (storeC4, [], some GoError.errWrongOwner)
  ∧ checkHabit storeC4 2 10 3 9 = (storeC4, [], some GoError.errHabitNotFound)
  ∧ checkHabit storeC4 1 10 12 9 = (storeC4, [], some GoError.errCheckDateNotAllowed) := by
  exact ⟨rfl, rfl, rfl, rfl, rfl⟩

/-- Claim C5: verifying a token immediately after issuing it with the same
server secret succeeds (the exp/nbf validation passes at issue time) and
yields claims whose user_id equals the id of the user the token was issued
for. -/
theorem token_roundtrip (secret : String) (now : Int) (user : User) :
    parseToken secret now (generateToken secret now user) =
      Except.ok (generateToken secret now user).claims
  ∧ (generateToken secret now user).claims.userID = toString user.id := by
  constructor
  · have hexp : ¬ (now + tokenTTL ≤ now) := by unfold tokenTTL; omega
    simp [parseToken, generateToken, hexp]
  · rfl

def storeC2 : Store :=
  { users := [{ id := 1, name := "alice", passwordHash := bcryptHash "hunter2abc" }],
    habits := [], checks := [] }

/-- Claim C2 (code-bug evidence): Register with a name that is already taken
returns a fresh errors.New value whose kind errors.Is does not identify with
errorvalues.ErrUserExists, so the transport layer cannot recognise the
AlreadyExists kind. -/
theorem register_duplicate_not_recognisable :
    register storeC2 { name := "alice", password := "password1" } =
      (storeC2, [Effect.usersCreateCall "alice"],
        Except.error (GoError.errNew "user with such name already exists"))
  ∧ errorsIs (GoError.errNew "user with such name already exists") GoError.errUserExists = false := by
  exact ⟨rfl, rfl⟩

def storeC3 : Store :=
  { users := [{ id := 1, name := "alice", passwordHash := bcryptHash "correct_password" }],
    habits := [], checks := [] }

/-- Claim C3 (code-bug evidence): Login with an unknown name and Login with
a wrong password both return fresh errors.New values that errors.Is does not
identify with errorvalues.ErrUserNotFound or errorvalues.ErrWrongCredentials. -/
theorem login_errors_not_recognisable :
    login storeC3 "bob" "whatever" = Except.error (GoError.errNew "user with given name not found")
  ∧ errorsIs (GoError.errNew "user with given name not found") GoError.errUserNotFound = false
  ∧ login storeC3 "alice" "wrong_password" = Except.error (GoError.errNew "login failed: wrong password")
  ∧ errorsIs (GoError.errNew "login failed: wrong password") GoError.errWrongCredentials = false := by
  exact ⟨rfl, rfl, rfl, rfl⟩

/-- Claim C8 amended: when the requester is the owner of an existing habit,
GetHabitStats performs only the lookup and ownership check and then returns
no statistics value at all (the source returns nil, nil with a TO-DO). -/
theorem getHabitStats_stub (s : Store) (habitID userID : UUID) (hb : Habit)
    (hfind : s.habits.find? (fun h => h.id == habitID) = some hb)
    (howner : hb.userID = userID) :
    getHabitStats s habitID userID = Except.ok none := by
  have hbid : habitsGetByID s habitID = .ok hb := by
    unfold habitsGetByID; rw [hfind]
  simp [getHabitStats, hbid, howner]

def storeC8 : Store :=
  { users := [],
    habits := [{ id := 1, userID := 10, title := "Run", description := "", createdAt := 0, updatedAt := 0 }],
    checks := [{ id := 1, habitID := 1, checkDate := 5, createdAt := 5 }] }

/-- Witness for the amended C8 at a concrete store. -/
theorem getHabitStats_stub_witness :
    getHabitStats storeC8 1 10 = Except.ok none :=
  getHabitStats_stub storeC8 1 10
    { id := 1, userID := 10, title := "Run", description := "", createdAt := 0, updatedAt := 0 }
    rfl rfl

/-- Claim C8 counterexample: for an owner request on a habit that has one
check, GetHabitStats does not return any HabitStats value, so in particular
no value with total_checks equal to the number of checks. -/
theorem getHabitStats_returns_no_stats :
    getHabitStats storeC8 1 10 = Except.ok none
  ∧ ¬ ∃ st : HabitStats, getHabitStats storeC8 1 10 = Except.ok (some st) := by
  refine ⟨rfl, ?_⟩
  rintro ⟨st, h⟩
  rw [show getHabitStats storeC8 1 10 = Except.ok none from rfl] at h
  simp at h

def storeC7 : Store :=
  { users := [],
    habits := [{ id := 1, userID := 10, title := "Run", description := "", createdAt := 0, updatedAt := 0 }],
    checks := [{ id := 1, habitID := 1, checkDate := 5, createdAt := 0 },
               { id := 2, habitID := 1, checkDate := 3, createdAt := 0 }] }

/-- Claim C7 (code-bug evidence): for the owner of a habit that has checks
on dates 5 and 3, GetHabitChecks over the inclusive range 0 to 10 returns
the wrapped query error and never a list: the range query's SQL names the
nonexistent column habitID (and its Scan passes values, not pointers).
Ownership is still enforced first. -/
theorem getHabitChecks_query_fails :
    getHabitChecks storeC7 1 10 0 10 =
      Except.error (GoError.errNew "repository error: getting checks for period error: ERROR: column \"habitid\" does not exist (SQLSTATE 42703)")
  ∧ (¬ ∃ l : List HabitCheck, getHabitChecks storeC7 1 10 0 10 = Except.ok l)
  ∧ getHabitChecks storeC7 1 20 0 10 = Except.error GoError.errWrongOwner := by
  refine ⟨rfl, ?_, rfl⟩
  rintro ⟨l, h⟩
  rw [show getHabitChecks storeC7 1 10 0 10 =
      Except.error (GoError.errNew "repository error: getting checks for period error: ERROR: column \"habitid\" does not exist (SQLSTATE 42703)") from rfl] at h
  cases h

/-- Claim C6 amended: for a signature-valid HS256 token whose user_id claim
parses and whose user still exists, the gate accepts exactly when now lies
in the half-open interval from not_before up to but excluding expires_at;
at or after expires_at, and before not_before, the request is rejected and
the handler chain is not invoked, but the rejection happens in the
token-parse step (jwt/v5 default claims validation) and surfaces as the
internal parse-error response, not as the gate's token-expired response,
whose own temporal check is unreachable for signature-valid tokens. -/
theorem auth_gate_window_half_open (s : Store) (secret : String) (now : Int)
    (tok : SignedToken) (uid : UUID) (u : User)
    (hm : tok.method = SigningMethod.hs256)
    (hs : tok.signature = hmacSign secret tok.claims)
    (hp : uuidParse tok.claims.userID = some uid)
    (hu : usersFindByID s uid = Except.ok u) :
    (authMiddleware s secret now tok = AuthOutcome.accepted uid ↔
      tok.claims.notBefore ≤ now ∧ now < tok.claims.expiresAt)
  ∧ (tok.claims.expiresAt ≤ now →
      authMiddleware s secret now tok = AuthOutcome.rejected 500 "error parsing token")
  ∧ (now < tok.claims.notBefore →
      authMiddleware s secret now tok = AuthOutcome.rejected 500 "error parsing token") := by
  have hget : userGetByID s uid = .ok u := by
    simp [userGetByID, hu]
  by_cases hexp : tok.claims.expiresAt ≤ now
  · have hparse : parseToken secret now tok =
        .error (.errNew "token parsing error: token has invalid claims: token is expired") := by
      simp [parseToken, hm, hs, hexp]
    have hrej : authMiddleware s secret now tok = AuthOutcome.rejected 500 "error parsing token" := by
      simp [authMiddleware, hparse, errorsIs]
    refine ⟨?_, fun _ => hrej, fun _ => hrej⟩
    rw [hrej]
    constructor
    · intro hfalse; cases hfalse
    · rintro ⟨h1, h2⟩; omega
  · by_cases hnbf : now < tok.claims.notBefore
    · have hparse : parseToken secret now tok =
          .error (.errNew "token parsing error: token has invalid claims: token is not valid yet") := by
        simp [parseToken, hm, hs, hexp, hnbf]
      have hrej : authMiddleware s secret now tok = AuthOutcome.rejected 500 "error parsing token" := by
        simp [authMiddleware, hparse, errorsIs]
      refine ⟨?_, fun hc => absurd hc hexp, fun _ => hrej⟩
      rw [hrej]
      constructor
      · intro hfalse; cases hfalse
      · rintro ⟨h1, h2⟩; omega
    · have hparse : parseToken secret now tok = .ok tok.claims := by
        simp [parseToken, hm, hs, hexp, hnbf]
      have hcond : ¬ (tok.claims.expiresAt < now ∨ tok.claims.notBefore > now) := by omega
      have hacc : authMiddleware s secret now tok = AuthOutcome.accepted uid := by
        simp [authMiddleware, hparse, hcond, hp, hget]
      refine ⟨?_, fun hc => absurd hc hexp, fun hc => absurd hc hnbf⟩
      rw [hacc]
      exact ⟨fun _ => ⟨by omega, by omega⟩, fun _ => rfl⟩

def storeC6 : Store :=
  { users := [{ id := 7, name := "bob", passwordHash := "h" }], habits := [], checks := [] }

def tokenC6 : SignedToken :=
  generateToken "secret" 0 { id := 7, name := "bob", passwordHash := "h" }

/-- Witness for the amended C6: at one second before expiry the gate admits
the request; at the expiry instant the request fails in the token-parse
step and surfaces as the parse-error response. -/
theorem auth_gate_window_half_open_witness :
    authMiddleware storeC6 "secret" 3599 tokenC6 = AuthOutcome.accepted 7
  ∧ authMiddleware storeC6 "secret" 3600 tokenC6 = AuthOutcome.rejected 500 "error parsing token" := by
  constructor
  · exact (auth_gate_window_half_open storeC6 "secret" 3599 tokenC6 7
      { id := 7, name := "bob", passwordHash := "h" } rfl rfl rfl rfl).1.mpr (by decide)
  · exact (auth_gate_window_half_open storeC6 "secret" 3600 tokenC6 7
      { id := 7, name := "bob", passwordHash := "h" } rfl rfl rfl rfl).2.1 (by decide)

/-- Claim C6 counterexample: at now exactly equal to expires_at the request
is rejected inside the token-parse step and surfaces as the internal
parse-error response, not as the gate's token-expired response that the
claim names. -/
theorem auth_gate_expiry_rejected_in_parse :
    tokenC6.claims.expiresAt = 3600
  ∧ authMiddleware storeC6 "secret" 3600 tokenC6 = AuthOutcome.rejected 500 "error parsing token"
  ∧ authMiddleware storeC6 "secret" 3600 tokenC6 ≠ AuthOutcome.rejected 401 "token expired or not ready" := by
  refine ⟨rfl, rfl, ?_⟩
  decide

/-- The claim's acceptance condition for Register, stated from the spec
wording: the name is non-empty, its first character is a letter, every
character is a letter, digit or underscore, its length is between 3 and
100, and the password length is between 8 and 72. -/
def specValidRegister (req : RegisterRequest) : Prop :=
  (∃ c rest, req.name.toList = c :: rest ∧ c.isAlpha = true)
  ∧ (∀ c ∈ req.name.toList, c.isAlpha = true ∨ c.isDigit = true ∨ c = '_')
  ∧ 3 ≤ req.name.length ∧ req.name.length ≤ 100
  ∧ 8 ≤ req.password.length ∧ req.password.length ≤ 72

theorem isAlpha_excludes (c : Char) (h : c.isAlpha = true) :
    c.isDigit = false ∧ c ≠ '_' := by
  rw [Char.isAlpha, Char.isUpper, Char.isLower] at h
  simp only [Bool.or_eq_true, Bool.and_eq_true, decide_eq_true_eq, ge_iff_le] at h
  have hval : (65 ≤ c.val.toNat ∧ c.val.toNat ≤ 90) ∨ (97 ≤ c.val.toNat ∧ c.val.toNat ≤ 122) := by
    rcases h with ⟨h1, h2⟩ | ⟨h1, h2⟩
    · exact Or.inl ⟨UInt32.le_toNat_of_le (by decide) h1, UInt32.toNat_le_of_le (by decide) h2⟩
    · exact Or.inr ⟨UInt32.le_toNat_of_le (by decide) h1, UInt32.toNat_le_of_le (by decide) h2⟩
  constructor
  · cases hd : c.isDigit with
    | false => rfl
    | true =>
      rw [Char.isDigit] at hd
      simp only [Bool.and_eq_true, decide_eq_true_eq, ge_iff_le] at hd
      have h57 : c.val.toNat ≤ 57 := UInt32.toNat_le_of_le (by decide) hd.2
      have h48 : 48 ≤ c.val.toNat := UInt32.le_toNat_of_le (by decide) hd.1
      omega
  · rintro rfl
    revert hval
    decide

theorem toList_ne_nil_of_ne_empty (v : String) (h : v ≠ "") : v.toList ≠ [] := by
  intro hE
  apply h
  cases v with
  | mk data =>
    cases data with
    | nil => rfl
    | cons c cs => cases hE

theorem alphanumUnderscore_iff (v : String) (hne : v.toList ≠ []) :
    alphanumUnderscore v = true ↔
      ((∃ c rest, v.toList = c :: rest ∧ c.isAlpha = true)
        ∧ ∀ c ∈ v.toList, c.isAlpha = true ∨ c.isDigit = true ∨ c = '_') := by
  unfold alphanumUnderscore
  cases hv : v.toList with
  | nil => exact absurd hv hne
  | cons c rest =>
    simp only [Bool.and_eq_true, Bool.not_eq_true', Bool.or_eq_false_iff,
      List.all_eq_true, Bool.or_eq_true, beq_iff_eq, beq_eq_false_iff_ne, ne_eq, or_assoc]
    constructor
    · rintro ⟨⟨hd, hu⟩, hall⟩
      have hcall := hall c (List.mem_cons_self c rest)
      have hcalpha : c.isAlpha = true := by
        rcases hcall with h | h | h
        · exact h
        · rw [h] at hd; cases hd
        · exact absurd h hu
      exact ⟨⟨c, rest, rfl, hcalpha⟩, hall⟩
    · rintro ⟨⟨c', rest', heq, hcalpha⟩, hall⟩
      obtain ⟨rfl, rfl⟩ : c' = c ∧ rest' = rest := by
        cases heq; exact ⟨rfl, rfl⟩
      obtain ⟨hd, hu⟩ := isAlpha_excludes c' hcalpha
      exact ⟨⟨hd, hu⟩, hall⟩

/-- Claim C9: Register passes validation exactly when the name is non-empty,
starts with a letter, consists of letters, digits and underscores, and has
length 3 to 100, and the password has length 8 to 72; on any violation it
fails with the validation error and issues no repository call, and on valid
input it proceeds to the creating repository call. -/
theorem register_validation (req : RegisterRequest) (s : Store) :
    (validateRegisterRequest req = true ↔ specValidRegister req)
  ∧ (validateRegisterRequest req = false →
      register s req = (s, [], Except.error (GoError.errNew "validation error: ")))
  ∧ (validateRegisterRequest req = true →
      (register s req).2.1 = [Effect.usersCreateCall req.name]) := by
  refine ⟨?_, ?_, ?_⟩
  · unfold validateRegisterRequest specValidRegister
    simp only [Bool.and_eq_true, bne_iff_ne, ne_eq, decide_eq_true_eq, and_assoc]
    constructor
    · rintro ⟨hne, hau, h3, h100, hpne, h8, h72⟩
      have hnl : req.name.toList ≠ [] := toList_ne_nil_of_ne_empty _ hne
      obtain ⟨hex, hall⟩ := (alphanumUnderscore_iff req.name hnl).mp hau
      exact ⟨hex, hall, h3, h100, h8, h72⟩
    · rintro ⟨⟨c, rest, heq, hcalpha⟩, hall, h3, h100, h8, h72⟩
      have hnl : req.name.toList ≠ [] := by
        rw [heq]; exact List.cons_ne_nil c rest
      have hne : ¬ req.name = "" := by
        intro hE; apply hnl; rw [hE]; rfl
      have hpne : ¬ req.password = "" := by
        intro hE
        rw [hE] at h8
        norm_num [String.length] at h8
      exact ⟨hne, (alphanumUnderscore_iff req.name hnl).mpr ⟨⟨c, rest, heq, hcalpha⟩, hall⟩,
        h3, h100, hpne, h8, h72⟩
  · intro h
    simp [register, h]
  · intro h
    simp only [register, h, Bool.not_true, Bool.false_eq_true, if_false]
    cases hc : usersCreate s req.name (bcryptHash req.password) with
    | error e => cases he : errorsIs e .errUserExists <;> simp [hc, he]
    | ok s' =>
      cases hf : usersFindByName s' req.name with
      | error e => simp [hc, hf]
      | ok user => simp [hc, hf]

def storeC9 : Store := { users := [], habits := [], checks := [] }

/-- Witness for C9: the request named "a" violates the length rule, fails
with the validation error and changes nothing; the request named "runner_1"
satisfies the acceptance condition and reaches the creating call. -/
theorem register_validation_witness :
    register storeC9 { name := "a", password := "pw" } =
      (storeC9, [], Except.error (GoError.errNew "validation error: "))
  ∧ (register storeC9 { name := "runner_1", password := "12345678" }).2.1 =
      [Effect.usersCreateCall "runner_1"] := by
  constructor
  · exact (register_validation { name := "a", password := "pw" } storeC9).2.1 (by decide)
  · exact (register_validation { name := "runner_1", password := "12345678" } storeC9).2.2 (by decide)

/-- Claim C10: whenever Register, DeleteAccount, DeleteHabit, CheckHabit or
UncheckHabit fails on one of its own precondition checks (validation
failure, wrong password, habit not found, wrong owner, future date,
duplicate check, missing check), the mutating repository call has not been
issued and the store is unchanged. -/
theorem error_paths_no_mutation (s : Store) (req : RegisterRequest)
    (id : UUID) (password : String) (habitID userID : UUID) (date now : Int) :
    (validateRegisterRequest req = false →
      register s req = (s, [], Except.error (GoError.errNew "validation error: ")))
  ∧ ((deleteAccount s id password).2.2 = some (GoError.errNew "deletion failed: wrong password") →
      (deleteAccount s id password).1 = s ∧ (deleteAccount s id password).2.1 = [])
  ∧ (∀ e, (deleteHabit s habitID userID).2.2 = some e →
      e = GoError.errHabitNotFound ∨ e = GoError.errWrongOwner →
      (deleteHabit s habitID userID).1 = s ∧ (deleteHabit s habitID userID).2.1 = [])
  ∧ (∀ e, (checkHabit s habitID userID date now).2.2 = some e →
      e = GoError.errHabitNotFound ∨ e = GoError.errWrongOwner ∨
        e = GoError.errCheckDateNotAllowed ∨ e = GoError.errCheckExist →
      (checkHabit s habitID userID date now).1 = s ∧ (checkHabit s habitID userID date now).2.1 = [])
  ∧ (∀ e, (uncheckHabit s habitID userID date).2.2 = some e →
      e = GoError.errHabitNotFound ∨ e = GoError.errWrongOwner ∨ e = GoError.errCheckNotFound →
      (uncheckHabit s habitID userID date).1 = s ∧ (uncheckHabit s habitID userID date).2.1 = []) := by
  refine ⟨?_, ?_, ?_, ?_, ?_⟩
  · intro h
    simp [register, h]
  · intro h
    unfold deleteAccount at h ⊢
    cases hf : usersFindByID s id with
    | error e =>
      cases he : errorsIs e .errUserNotFound <;> simp [he]
    | ok u =>
      by_cases hbc : bcryptCompare u.passwordHash password = true
      · obtain ⟨s', hdel⟩ := usersDelete_ok_of_found s id u hf
        rw [hf] at h
        simp [hbc, hdel] at h
      · simp [hbc]
  · intro e h hkind
    unfold deleteHabit at h ⊢
    cases hg : habitsGetByID s habitID with
    | error e' =>
      cases he : errorsIs e' .errHabitNotFound <;> simp [he]
    | ok hb =>
      by_cases how : (hb.userID != userID) = true
      · simp [how]
      · rw [hg] at h
        rw [habitsDelete_ok_of_found s habitID hb hg] at h
        simp [how] at h
  · intro e h hkind
    unfold checkHabit at h ⊢
    cases hg : habitsGetByID s habitID with
    | error e' =>
      cases he : errorsIs e' .errHabitNotFound <;> simp [he]
    | ok hb =>
      by_cases how : (hb.userID != userID) = true
      · simp [how]
      · by_cases hlt : now < date
        · simp [how, hlt]
        · simp [how, hlt, checksExists]
  · intro e h hkind
    unfold uncheckHabit at h ⊢
    cases hg : habitsGetByID s habitID with
    | error e' =>
      cases he : errorsIs e' .errHabitNotFound <;> simp [he]
    | ok hb =>
      by_cases how : (hb.userID != userID) = true
      · simp [how]
      · simp [how, checksExists]

def storeC10 : Store :=
  { users := [],
    habits := [{ id := 1, userID := 10, title := "Run", description := "", createdAt := 0, updatedAt := 0 }],
    checks := [] }

/-- Witness for C10: a validation-failing registration and a wrong-owner
check attempt both leave the concrete store untouched with no mutating
repository call. -/
theorem error_paths_no_mutation_witness :
    register storeC10 { name := "x", password := "longenough" } =
      (storeC10, [], Except.error (GoError.errNew "validation error: "))
  ∧ (checkHabit storeC10 1 20 3 9).1 = storeC10
  ∧ (checkHabit storeC10 1 20 3 9).2.1 = [] := by
  have h := error_paths_no_mutation storeC10 { name := "x", password := "longenough" } 0 "" 1 20 3 9
  refine ⟨h.1 (by decide), ?_, ?_⟩
  · exact (h.2.2.2.1 GoError.errWrongOwner (by decide) (Or.inr (Or.inl rfl))).1
  · exact (h.2.2.2.1 GoError.errWrongOwner (by decide) (Or.inr (Or.inl rfl))).2

end Discipline
